import Mathlib

/-!
# Verification of the Trino row-pattern-recognition benchmark measurement pipeline

This file is a shallow embedding of the measurement/re­conciliation core of
`benchmark.py`: the duration and memory unit parsers
(`parse_duration_to_seconds`, `parse_memory_to_mb`), the metrics extractor
(`get_query_stats_from_api`) and the execution measurer
(`measure_query_execution`), together with the CSV row emitted per trial by
`run_benchmark`.

Modelling conventions:
* Python floats are modelled as exact rationals (`Rat`); all the arithmetic
  the pipeline performs (division/multiplication by powers of 10 and 1024)
  is exact on the inputs of interest.
* Python `float(str)` is modelled by `floatParse`, covering the decimal
  literal grammar (sign, integer/fractional digits, exponent, surrounding
  whitespace).  `inf`/`nan` literals and underscore digit grouping are not
  modelled; no input relevant here uses them.  `floatParse` returns `none`
  exactly when Python `float()` raises `ValueError`.
* A function that can raise a Python exception is modelled with an `Option`
  result, `none` meaning "an exception was raised".
* JSON scalar values reaching the pipeline are modelled by `JVal`
  (string, integer, null); Python truthiness on them is `jtruthy`.
-/

namespace Benchmark

/-! ## Character-list utilities (Python string primitives) -/

/-- Python `str.strip()` (also the whitespace stripping `float()` performs). -/
def ltrim (s : List Char) : List Char :=
  ((s.dropWhile Char.isWhitespace).reverse.dropWhile Char.isWhitespace).reverse

/-- Python substring containment `pat in s`. -/
def lcontains (pat : List Char) : List Char → Bool
  | [] => pat.isEmpty
  | c :: t => pat.isPrefixOf (c :: t) || lcontains pat t

/-- Python `s.endswith(c)` for a single character. -/
def lendsWith (c : Char) (s : List Char) : Bool :=
  match s.getLast? with
  | some d => d == c
  | none => false

/-- Python `s.rstrip(c)` for a single character: drop all trailing `c`. -/
def lrstrip (c : Char) (s : List Char) : List Char :=
  (s.reverse.dropWhile (fun d => d == c)).reverse

/-- Fuel-driven worker for `lremove`; the fuel is the length of the string,
which suffices because every step consumes at least one character. -/
def lremoveAux : Nat → List Char → List Char → List Char
  | 0, _, s => s
  | Nat.succ n, pat, s =>
    match s with
    | [] => []
    | c :: t =>
      if pat.isPrefixOf (c :: t) && !pat.isEmpty then
        lremoveAux n pat ((c :: t).drop pat.length)
      else
        c :: lremoveAux n pat t

/-- Python `s.replace(pat, '')`: remove all (left-to-right, non-overlapping)
occurrences of `pat`.  Every use in the source replaces with the empty
string, so only removal is modelled. -/
def lremove (pat s : List Char) : List Char :=
  lremoveAux s.length pat s

/-! ## Python `float()` on decimal literals -/

/-- Numeric value of a digit string. -/
def digitsVal (cs : List Char) : Nat :=
  cs.foldl (fun a c => a * 10 + (c.toNat - 48)) 0

/-- Split an optional leading sign; `true` means negative. -/
def splitSign : List Char → Bool × List Char
  | '-' :: t => (true, t)
  | '+' :: t => (false, t)
  | s => (false, s)

/-- Parse the (possibly empty) exponent part `[(e|E)[sign]digits]` that may
follow the mantissa; `none` when the remainder is not a valid exponent. -/
def parseExpPart : List Char → Option Int
  | [] => some 0
  | c :: t =>
    if c == 'e' || c == 'E' then
      let p := splitSign t
      let ds := p.2.takeWhile Char.isDigit
      let rest := p.2.dropWhile Char.isDigit
      if ds.isEmpty || !rest.isEmpty then none
      else some (if p.1 then -(digitsVal ds : Int) else (digitsVal ds : Int))
    else none

/-- Python `float()` on an already-stripped character list.  Accepts
`[sign] digits [. digits] [(e|E) [sign] digits]` where at least one mantissa
digit is present; `none` models `ValueError`. -/
def floatParseChars (cs0 : List Char) : Option Rat :=
  let p := splitSign cs0
  let cs := p.2
  let ip := cs.takeWhile Char.isDigit
  let r1 := cs.dropWhile Char.isDigit
  let fpr : Option (List Char) × List Char :=
    match r1 with
    | '.' :: t => (some (t.takeWhile Char.isDigit), t.dropWhile Char.isDigit)
    | _ => (none, r1)
  if ip.isEmpty && (fpr.1.getD []).isEmpty then none
  else
    match parseExpPart fpr.2 with
    | none => none
    | some e =>
      let fd := fpr.1.getD []
      let mant : Rat := (digitsVal ip : Rat) + (digitsVal fd : Rat) / ((10 : Rat) ^ fd.length)
      let v : Rat := mant * ((10 : Rat) ^ e)
      some (if p.1 then -v else v)

/-- Python `float(s)`: strips surrounding whitespace, then parses. -/
def floatParse (s : List Char) : Option Rat :=
  floatParseChars (ltrim s)

/-! ## JSON scalar values and Python truthiness -/

/-- A JSON scalar value as it reaches the pipeline from the statistics
endpoint: a string, an integer, or null (Python `None`). -/
inductive JVal where
  | jstr (s : String)
  | jint (n : Int)
  | jnull
deriving DecidableEq

/-- Python truthiness of a `JVal`: `None`, `""` and `0` are falsy. -/
def jtruthy : JVal → Bool
  | .jstr s => s ≠ ""
  | .jint n => n ≠ 0
  | .jnull => false

/-- Python truthiness of an optional value (`none` models an absent /
`None` value, hence falsy). -/
def otruthy : Option JVal → Bool
  | none => false
  | some v => jtruthy v

/-- Python `str()` of a `JVal`. -/
def pyStr : JVal → String
  | .jstr s => s
  | .jint n => toString n
  | .jnull => "None"

/-! ## The duration parser (`parse_duration_to_seconds`, benchmark.py:112) -/

/-- Normalisation the duration parser applies to a truthy argument:
`str(x).lower().strip()`. -/
def normDur (w : JVal) : List Char :=
  ltrim ((pyStr w).data.map Char.toLower)

/-- The suffix-dispatch chain of `parse_duration_to_seconds` on the
normalised string, in source order: `ns` containment, trailing `n`, `ms`,
`us`, `s`, `m` containment, then bare numeric (whose failure is caught and
degrades to 0).  `none` models an uncaught `ValueError` from `float()` in
one of the suffix branches. -/
def durChain (cs : List Char) : Option Rat :=
  if lcontains "ns".data cs then
    (floatParse (lremove "ns".data cs)).map (fun v => v / 1000000000)
  else if lendsWith 'n' cs then
    (floatParse (lrstrip 'n' cs)).map (fun v => v / 1000000000)
  else if lcontains "ms".data cs then
    (floatParse (lremove "ms".data cs)).map (fun v => v / 1000)
  else if lcontains "us".data cs then
    (floatParse (lremove "us".data cs)).map (fun v => v / 1000000)
  else if lcontains "s".data cs then
    floatParse (lremove "s".data cs)
  else if lcontains "m".data cs then
    (floatParse (lremove "m".data cs)).map (fun v => v * 60)
  else
    match floatParse cs with
    | some v => some v
    | none => some 0

/-- `parse_duration_to_seconds` (benchmark.py:112-137).  The argument is the
Python value passed in (`none` = Python `None`); a falsy argument returns 0
immediately.  The result is `some` seconds, or `none` when the Python code
raises `ValueError`. -/
def parse_duration_to_seconds (v : Option JVal) : Option Rat :=
  match v with
  | none => some 0
  | some w => if jtruthy w then durChain (normDur w) else some 0

/-! ## The memory parser (`parse_memory_to_mb`, benchmark.py:139) -/

/-- Normalisation the memory parser applies to a truthy argument:
`str(x).upper()` (no strip). -/
def normMem (w : JVal) : List Char :=
  (pyStr w).data.map Char.toUpper

/-- The suffix-dispatch chain of `parse_memory_to_mb` on the upper-cased
string, in source order: `GB`, `MB`, `KB`, bare `B` (with the source's
redundant `KB`/`MB` exclusions), then bare numeric bytes (whose failure is
caught and degrades to 0). -/
def memChain (cs : List Char) : Option Rat :=
  if lcontains "GB".data cs then
    (floatParse (lremove "GB".data cs)).map (fun v => v * 1024)
  else if lcontains "MB".data cs then
    floatParse (lremove "MB".data cs)
  else if lcontains "KB".data cs then
    (floatParse (lremove "KB".data cs)).map (fun v => v / 1024)
  else if lcontains "B".data cs && !lcontains "KB".data cs && !lcontains "MB".data cs then
    (floatParse (lremove "B".data cs)).map (fun v => v / (1024 * 1024))
  else
    match floatParse cs with
    | some v => some (v / (1024 * 1024))
    | none => some 0

/-- `parse_memory_to_mb` (benchmark.py:139-158), with the same conventions
as `parse_duration_to_seconds`. -/
def parse_memory_to_mb (v : Option JVal) : Option Rat :=
  match v with
  | none => some 0
  | some w => if jtruthy w then memChain (normMem w) else some 0

/-! ## The metrics extractor (`get_query_stats_from_api`, benchmark.py:160) -/

/-- The `outputStage` substructure of the endpoint's JSON body: only the
optional `stageStats` dictionary is consulted. -/
structure StageJson where
  stageStats : Option (List (String × JVal)) := none
deriving DecidableEq

/-- The JSON body of a 200 response from `GET /v1/query/{query_id}`:
the optional top-level `state`, the `queryStats` dictionary (absence is
modelled as the empty dictionary, matching `data.get('queryStats', {})`),
and the optional `outputStage` substructure. -/
structure QueryJson where
  state : Option JVal := none
  queryStats : List (String × JVal) := []
  outputStage : Option StageJson := none
deriving DecidableEq

/-- Python `dict.get(k)`: `none` when the key is absent (a stored JSON
null is `some .jnull`; both are falsy and both parse as `None` downstream). -/
def dget (d : List (String × JVal)) (k : String) : Option JVal :=
  (d.find? (fun p => p.1 == k)).map (fun p => p.2)

/-- Python `a or b` where both operands may be `None`-bearing lookups:
returns `a` when truthy, else `b` (which is returned even when falsy). -/
def pyOr (a b : Option JVal) : Option JVal :=
  if otruthy a then a else b

/-- Python `a or d` where the right operand is a literal default:
returns `a`'s value when truthy, else the default. -/
def pyOrD (a : Option JVal) (d : JVal) : JVal :=
  if otruthy a then a.getD d else d

/-- The metrics record built from a 200 response (the non-empty dictionary
returned at benchmark.py:221-233). -/
structure StatsRecord where
  query_id : String
  state : JVal
  cpu_time_str : JVal
  cpu_time_sec : Rat
  elapsed_time_str : JVal
  elapsed_time_sec : Rat
  peak_memory_str : Option JVal
  peak_memory_mb : Rat
  physical_input_rows : JVal
  output_rows : JVal
  source : String
deriving DecidableEq

/-- The CPU-time candidate chain (benchmark.py:182-185):
`stats.get('totalCpuTime') or stats.get('cpuTime') or
stats.get('totalCpuTimeMillis') or '0ms'`. -/
def cpuTimeChain (stats : List (String × JVal)) : JVal :=
  pyOrD (dget stats "totalCpuTime")
    (pyOrD (dget stats "cpuTime")
      (pyOrD (dget stats "totalCpuTimeMillis") (JVal.jstr "0ms")))

/-- The elapsed-time candidate chain (benchmark.py:188-191). -/
def elapsedTimeChain (stats : List (String × JVal)) : JVal :=
  pyOrD (dget stats "elapsedTime")
    (pyOrD (dget stats "executionTime")
      (pyOrD (dget stats "elapsedTimeMillis") (JVal.jstr "0ms")))

/-- The top-level peak-memory candidate chain (benchmark.py:194-199); its
last operand is a lookup, so the whole chain can be falsy. -/
def peakMemoryChain (stats : List (String × JVal)) : Option JVal :=
  pyOr (dget stats "peakMemoryReservation")
    (pyOr (dget stats "peakUserMemoryReservation")
      (pyOr (dget stats "peakTotalMemoryReservation")
        (pyOr (dget stats "peakTaskUserMemory")
          (pyOr (dget stats "peakUserMemory") (dget stats "peakTotalMemory")))))

/-- The `outputStage.stageStats` fallback chain for peak memory
(benchmark.py:206-207). -/
def stagePeakChain (ss : List (String × JVal)) : Option JVal :=
  pyOr (dget ss "peakUserMemoryReservation") (dget ss "peakMemoryReservation")

/-- The input-row candidate chain (benchmark.py:212-216). -/
def inputRowsChain (stats : List (String × JVal)) : JVal :=
  pyOrD (dget stats "physicalInputRows")
    (pyOrD (dget stats "processedInputRows")
      (pyOrD (dget stats "rawInputRows")
        (pyOrD (dget stats "inputRows") (JVal.jint 0))))

/-- The output-row candidate chain (benchmark.py:219). -/
def outputRowsChain (stats : List (String × JVal)) : JVal :=
  pyOrD (dget stats "outputRows")
    (pyOrD (dget stats "completedRows") (JVal.jint 0))

/-- The peak-memory value after the `outputStage` fallback
(benchmark.py:202-207): the top-level chain if truthy or if there is no
`outputStage.stageStats` substructure to fall back to, else the stage
chain. -/
def peakResolved (data : QueryJson) : Option JVal :=
  let peak0 := peakMemoryChain data.queryStats
  if otruthy peak0 then peak0
  else
    match data.outputStage with
    | none => peak0
    | some st =>
      match st.stageStats with
      | none => peak0
      | some ss => stagePeakChain ss

/-- The body of the 200 branch of `get_query_stats_from_api`
(benchmark.py:177-233): candidate-field probing via Python `or` chains,
the `outputStage` fallback for peak memory, and the parsing of the chosen
raw values.  Returns `none` when one of the parsers raises (the caller
catches this and yields the empty record). -/
def buildStats (query_id : String) (data : QueryJson) : Option StatsRecord :=
  let stats := data.queryStats
  let cpu_time := cpuTimeChain stats
  let elapsed_time := elapsedTimeChain stats
  let peak := peakResolved data
  match (if otruthy peak then parse_memory_to_mb peak else some 0) with
  | none => none
  | some peak_memory_mb =>
    match parse_duration_to_seconds (some cpu_time) with
    | none => none
    | some cpu_time_sec =>
      match parse_duration_to_seconds (some elapsed_time) with
      | none => none
      | some elapsed_time_sec =>
        some {
          query_id := query_id
          state := data.state.getD (JVal.jstr "UNKNOWN")
          cpu_time_str := cpu_time
          cpu_time_sec := cpu_time_sec
          elapsed_time_str := elapsed_time
          elapsed_time_sec := elapsed_time_sec
          peak_memory_str := if otruthy peak then peak else none
          peak_memory_mb := peak_memory_mb
          physical_input_rows := inputRowsChain stats
          output_rows := outputRowsChain stats
          source := "REST API" }

/-- The observable outcome of the single HTTP GET the extractor may issue:
a network-level failure (`requests` exception) or a response with a status
code and, for 200, a parsed JSON body. -/
inductive HttpOutcome where
  | netError
  | response (status : Nat) (body : QueryJson)
deriving DecidableEq

/-- What `get_query_stats_from_api` produces: the metrics record (`none`
models the empty dictionary `{}`) plus whether an HTTP request was issued
at all. -/
structure ExtractorOutput where
  record : Option StatsRecord
  madeRequest : Bool
deriving DecidableEq

/-- `get_query_stats_from_api` (benchmark.py:160-246).  A falsy or
`'unknown'` identifier short-circuits with no request; a network error or
non-200 status yields the empty record; a 200 response is parsed by
`buildStats` (whose parser exceptions are caught, yielding the empty
record). -/
def get_query_stats_from_api (query_id : Option String) (http : HttpOutcome) : ExtractorOutput :=
  match query_id with
  | none => { record := none, madeRequest := false }
  | some q =>
    if q = "" ∨ q = "unknown" then { record := none, madeRequest := false }
    else
      match http with
      | HttpOutcome.netError => { record := none, madeRequest := true }
      | HttpOutcome.response status body =>
        if status = 200 then { record := buildStats q body, madeRequest := true }
        else { record := none, madeRequest := true }

/-! ## The execution measurer (`measure_query_execution`, benchmark.py:248) -/

/-- The observable outcome of executing the SQL statement on the cursor
(benchmark.py:255-269): whether execute+fetch succeeded, the exception text
when it did not, the number of fetched rows on success, and the query
identifier captured from the cursor (`none` when unavailable). -/
structure ExecOutcome where
  queryId : Option String
  success : Bool
  errorMsg : String
  rowCount : Nat
deriving DecidableEq

/-- Python `a or d` for an optional integer against a literal default
(used for `input_rows or 0`): `0` is falsy. -/
def pyOrIntD (a : Option Int) (d : Int) : Int :=
  match a with
  | none => d
  | some n => if n = 0 then d else n

/-- The processed-row reconciliation (benchmark.py:283-288):
`if server_input_rows and server_input_rows > 0` then the server value,
else the baseline estimate.  A truthy string value would make Python's
`> 0` comparison raise `TypeError` (uncaught), modelled as `none`. -/
def procRows (v : JVal) (input_rows : Option Int) : Option Int :=
  match v with
  | JVal.jint n => some (if 0 < n then n else pyOrIntD input_rows 0)
  | JVal.jnull => some (pyOrIntD input_rows 0)
  | JVal.jstr s => if s = "" then some (pyOrIntD input_rows 0) else none

/-- The per-trial result dictionary (benchmark.py:314-326). -/
structure TrialRecord where
  runtime_sec : Rat
  client_runtime_sec : Rat
  rows_returned : Nat
  input_rows_processed : Int
  throughput_input_rows_per_sec : Rat
  cpu_seconds : Option Rat
  peak_memory_mb : Option Rat
  status : String
  query_id : String
  stats_source : String
  server_stats : Option StatsRecord
deriving DecidableEq

/-- The `status` field: `"SUCCESS"` or an error string embedding the
exception message (benchmark.py:264-267). -/
def statusStr (e : ExecOutcome) : String :=
  if e.success then "SUCCESS" else "ERROR: " ++ e.errorMsg

/-- The `query_id` field: the captured identifier, or `"unavailable"` when
it is falsy (benchmark.py:323, `query_id or 'unavailable'`). -/
def queryIdStr (e : ExecOutcome) : String :=
  match e.queryId with
  | none => "unavailable"
  | some q => if q = "" then "unavailable" else q

/-- `measure_query_execution` (benchmark.py:248-326).  The wall-clock
duration, the cursor outcome and the HTTP outcome are inputs (they are the
environment's contribution); the function performs the reconciliation of
server-reported and client-observed metrics.  `none` models the uncaught
`TypeError` of `procRows` (never reached on integer-valued row counts). -/
def measure_query_execution (e : ExecOutcome) (client_duration : Rat)
    (input_rows : Option Int) (http : HttpOutcome) : Option TrialRecord :=
  match (get_query_stats_from_api e.queryId http).record with
  | some s =>
    match procRows s.physical_input_rows input_rows with
    | none => none
    | some processed =>
      let runtime := if 0 < s.elapsed_time_sec then s.elapsed_time_sec else client_duration
      some {
        runtime_sec := runtime
        client_runtime_sec := client_duration
        rows_returned := if e.success then e.rowCount else 0
        input_rows_processed := processed
        throughput_input_rows_per_sec :=
          if 0 < processed ∧ 0 < runtime then (processed : Rat) / runtime else 0
        cpu_seconds := if s.cpu_time_sec = 0 then none else some s.cpu_time_sec
        peak_memory_mb := if s.peak_memory_mb = 0 then none else some s.peak_memory_mb
        status := statusStr e
        query_id := queryIdStr e
        stats_source := s.source
        server_stats := some s }
  | none =>
    let processed := pyOrIntD input_rows 0
    some {
      runtime_sec := client_duration
      client_runtime_sec := client_duration
      rows_returned := if e.success then e.rowCount else 0
      input_rows_processed := processed
      throughput_input_rows_per_sec :=
        if 0 < processed ∧ 0 < client_duration then (processed : Rat) / client_duration else 0
      cpu_seconds := none
      peak_memory_mb := none
      status := statusStr e
      query_id := queryIdStr e
      stats_source := "client-only"
      server_stats := none }

/-! ## The CSV row written per trial (`run_benchmark`, benchmark.py:466-479) -/

/-- A CSV cell value before `csv.writer` stringifies it. -/
inductive Cell where
  | cstr (v : String)
  | cint (v : Int)
  | cnat (v : Nat)
  | crat (v : Rat)
deriving DecidableEq

/-- The cell written for `cpu_seconds` / `peak_memory_mb`: the empty string
when the record holds `None` (benchmark.py:475-476). -/
def csvCellOpt (x : Option Rat) : Cell :=
  match x with
  | none => Cell.cstr ""
  | some v => Cell.crat v

/-- The CSV row written for one trial (benchmark.py:466-479), in column
order `system, query_pattern, iteration, runtime_sec, client_runtime_sec,
input_rows_processed, rows_returned, throughput_input_rows_per_sec,
cpu_seconds, peak_memory_mb, status, query_id`. -/
def csv_trial_row (q_file : String) (i : Nat) (t : TrialRecord) : List Cell :=
  [Cell.cstr "trino",
   Cell.cstr q_file,
   Cell.cnat (i + 1),
   Cell.crat t.runtime_sec,
   Cell.crat t.client_runtime_sec,
   Cell.cint t.input_rows_processed,
   Cell.cnat t.rows_returned,
   Cell.crat t.throughput_input_rows_per_sec,
   csvCellOpt t.cpu_seconds,
   csvCellOpt t.peak_memory_mb,
   Cell.cstr t.status,
   Cell.cstr t.query_id]

/-! ## Spec-side abstractions used to compare against the implementation -/

/-- The ordered-fallback probe as the spec's words describe it for claim
C8: "probe an ordered list of candidate field names and take the first
present, non-null value".  This takes the first candidate whose key is
present with a non-null value, regardless of truthiness. -/
def firstPresentNonNull (stats : List (String × JVal)) : List String → Option JVal
  | [] => none
  | k :: t =>
    match dget stats k with
    | some v => if v = JVal.jnull then firstPresentNonNull stats t else some v
    | none => firstPresentNonNull stats t

/-- The ordered-fallback probe the implementation actually performs: the
first candidate whose value is truthy (present, non-null, non-zero and
non-empty), else the literal default.  `probeD stats keys d` unfolds to the
nested `pyOrD` chain for the listed keys. -/
def probeD (stats : List (String × JVal)) : List String → JVal → JVal
  | [], d => d
  | k :: t, d => pyOrD (dget stats k) (probeD stats t d)

/-- The ordered-fallback probe for the chains whose last operand is itself
a lookup (the peak-memory chains): the first truthy candidate, else the
value of the last lookup even when falsy (Python `a or b or ... or z`). -/
def probeLast (stats : List (String × JVal)) : List String → Option JVal
  | [] => none
  | [k] => dget stats k
  | k :: k2 :: t =>
    if otruthy (dget stats k) then dget stats k else probeLast stats (k2 :: t)

/-- True when the normalised duration string matches one of the parser's
unit-suffix branches (so that its `float()` call is outside the guarded
bare-numeric branch). -/
def hasDurSuffix (cs : List Char) : Bool :=
  lcontains "ns".data cs || lendsWith 'n' cs || lcontains "ms".data cs ||
    lcontains "us".data cs || lcontains "s".data cs || lcontains "m".data cs

/-- True when the upper-cased memory string matches one of the memory
parser's unit-suffix branches. -/
def hasMemSuffix (cs : List Char) : Bool :=
  lcontains "GB".data cs || lcontains "MB".data cs || lcontains "KB".data cs ||
    lcontains "B".data cs

/-- The CPU-time candidate field names, in probe order (benchmark.py:182-185). -/
def cpuTimeKeys : List String := ["totalCpuTime", "cpuTime", "totalCpuTimeMillis"]

/-- The elapsed-time candidate field names, in probe order (benchmark.py:188-191). -/
def elapsedTimeKeys : List String := ["elapsedTime", "executionTime", "elapsedTimeMillis"]

/-- The top-level peak-memory candidate field names, in probe order
(benchmark.py:194-199). -/
def peakMemoryKeys : List String :=
  ["peakMemoryReservation", "peakUserMemoryReservation", "peakTotalMemoryReservation",
   "peakTaskUserMemory", "peakUserMemory", "peakTotalMemory"]

/-- The stage-level peak-memory candidate field names, in probe order
(benchmark.py:206-207). -/
def stagePeakKeys : List String := ["peakUserMemoryReservation", "peakMemoryReservation"]

/-- The input-row candidate field names, in probe order (benchmark.py:212-216). -/
def inputRowKeys : List String :=
  ["physicalInputRows", "processedInputRows", "rawInputRows", "inputRows"]

/-- The output-row candidate field names, in probe order (benchmark.py:219). -/
def outputRowKeys : List String := ["outputRows", "completedRows"]

/-- A 200-response body whose statistics hold a present, non-null but zero
`physicalInputRows` next to a non-zero `processedInputRows`; it separates
"first present non-null" probing from the implementation's truthiness
probing. -/
def c8Body : QueryJson :=
  { queryStats := [("physicalInputRows", JVal.jint 0), ("processedInputRows", JVal.jint 5)] }

/-- A cursor outcome with no captured query identifier (witness fixture). -/
def wExec : ExecOutcome :=
  { queryId := none, success := true, errorMsg := "", rowCount := 3 }

/-- A cursor outcome with a captured query identifier (witness fixture). -/
def wExecQ : ExecOutcome :=
  { queryId := some "q9", success := true, errorMsg := "", rowCount := 5 }

/-- The trial `wExec` produces with client duration 2, baseline estimate 7
and a network error from the statistics endpoint (witness fixture). -/
def wTrialClient : TrialRecord :=
  { runtime_sec := 2, client_runtime_sec := 2, rows_returned := 3,
    input_rows_processed := 7, throughput_input_rows_per_sec := 7 / 2,
    cpu_seconds := none, peak_memory_mb := none, status := "SUCCESS",
    query_id := "unavailable", stats_source := "client-only", server_stats := none }

/-! ## Theorems

`Rat.mul`, `Rat.add`, `Rat.inv` and `Rat.sub` are `@[irreducible]` in the
library; they are made semireducible here so that concrete runs of the
pipeline can be settled by `decide`. -/

attribute [local semireducible] Rat.mul Rat.add Rat.inv Rat.sub

/-- C2: the Duration Parser checks unit suffixes in the priority order
`ns`, trailing bare `n`, `ms`, `us`, `s`, `m`, then bare numeric, and
converts accordingly; `"1.23s"` yields 1.23, `"456.78ms"` yields 0.45678,
`"100ns"` yields 1e-7, `"2m"` yields 120.0, empty or absent input yields 0,
and unsuffixed `"5"` yields 5.0. -/
theorem duration_parser_priority_and_examples :
    (∀ s : String, s ≠ "" →
      lcontains "ns".data (normDur (JVal.jstr s)) = true →
      parse_duration_to_seconds (some (JVal.jstr s)) =
        (floatParse (lremove "ns".data (normDur (JVal.jstr s)))).map (fun v => v / 1000000000)) ∧
    (∀ s : String, s ≠ "" →
      lcontains "ns".data (normDur (JVal.jstr s)) = false →
      lendsWith 'n' (normDur (JVal.jstr s)) = true →
      parse_duration_to_seconds (some (JVal.jstr s)) =
        (floatParse (lrstrip 'n' (normDur (JVal.jstr s)))).map (fun v => v / 1000000000)) ∧
    (∀ s : String, s ≠ "" →
      lcontains "ns".data (normDur (JVal.jstr s)) = false →
      lendsWith 'n' (normDur (JVal.jstr s)) = false →
      lcontains "ms".data (normDur (JVal.jstr s)) = true →
      parse_duration_to_seconds (some (JVal.jstr s)) =
        (floatParse (lremove "ms".data (normDur (JVal.jstr s)))).map (fun v => v / 1000)) ∧
    (∀ s : String, s ≠ "" →
      lcontains "ns".data (normDur (JVal.jstr s)) = false →
      lendsWith 'n' (normDur (JVal.jstr s)) = false →
      lcontains "ms".data (normDur (JVal.jstr s)) = false →
      lcontains "us".data (normDur (JVal.jstr s)) = true →
      parse_duration_to_seconds (some (JVal.jstr s)) =
        (floatParse (lremove "us".data (normDur (JVal.jstr s)))).map (fun v => v / 1000000)) ∧
    (∀ s : String, s ≠ "" →
      lcontains "ns".data (normDur (JVal.jstr s)) = false →
      lendsWith 'n' (normDur (JVal.jstr s)) = false →
      lcontains "ms".data (normDur (JVal.jstr s)) = false →
      lcontains "us".data (normDur (JVal.jstr s)) = false →
      lcontains "s".data (normDur (JVal.jstr s)) = true →
      parse_duration_to_seconds (some (JVal.jstr s)) =
        floatParse (lremove "s".data (normDur (JVal.jstr s)))) ∧
    (∀ s : String, s ≠ "" →
      lcontains "ns".data (normDur (JVal.jstr s)) = false →
      lendsWith 'n' (normDur (JVal.jstr s)) = false →
      lcontains "ms".data (normDur (JVal.jstr s)) = false →
      lcontains "us".data (normDur (JVal.jstr s)) = false →
      lcontains "s".data (normDur (JVal.jstr s)) = false →
      lcontains "m".data (normDur (JVal.jstr s)) = true →
      parse_duration_to_seconds (some (JVal.jstr s)) =
        (floatParse (lremove "m".data (normDur (JVal.jstr s)))).map (fun v => v * 60)) ∧
    (∀ s : String, s ≠ "" →
      hasDurSuffix (normDur (JVal.jstr s)) = false →
      parse_duration_to_seconds (some (JVal.jstr s)) =
        some ((floatParse (normDur (JVal.jstr s))).getD 0)) ∧
    parse_duration_to_seconds (some (JVal.jstr "1.23s")) = some (123 / 100) ∧
    parse_duration_to_seconds (some (JVal.jstr "456.78ms")) = some (45678 / 100000) ∧
    parse_duration_to_seconds (some (JVal.jstr "100ns")) = some (1 / 10000000) ∧
    parse_duration_to_seconds (some (JVal.jstr "2m")) = some 120 ∧
    parse_duration_to_seconds (some (JVal.jstr "")) = some 0 ∧
    parse_duration_to_seconds none = some 0 ∧
    parse_duration_to_seconds (some (JVal.jstr "5")) = some 5 := by
  refine ⟨?_, ?_, ?_, ?_, ?_, ?_, ?_, by decide, by decide, by decide, by decide,
    by decide, by decide, by decide⟩
  · intro s hs h1
    simp [parse_duration_to_seconds, jtruthy, hs, durChain, h1]
  · intro s hs h1 h2
    simp [parse_duration_to_seconds, jtruthy, hs, durChain, h1, h2]
  · intro s hs h1 h2 h3
    simp [parse_duration_to_seconds, jtruthy, hs, durChain, h1, h2, h3]
  · intro s hs h1 h2 h3 h4
    simp [parse_duration_to_seconds, jtruthy, hs, durChain, h1, h2, h3, h4]
  · intro s hs h1 h2 h3 h4 h5
    simp [parse_duration_to_seconds, jtruthy, hs, durChain, h1, h2, h3, h4, h5]
  · intro s hs h1 h2 h3 h4 h5 h6
    simp [parse_duration_to_seconds, jtruthy, hs, durChain, h1, h2, h3, h4, h5, h6]
  · intro s hs h
    simp only [hasDurSuffix, Bool.or_eq_false_iff] at h
    obtain ⟨⟨⟨⟨⟨h1, h2⟩, h3⟩, h4⟩, h5⟩, h6⟩ := h
    simp only [parse_duration_to_seconds, jtruthy, hs, durChain, h1, h2, h3, h4, h5, h6]
    cases hf : floatParse (normDur (JVal.jstr s)) <;> simp [hf, hs]

/-- Witness for C2: the `ns` branch fires on `"100ns"` (priority over the
`s` branch, which would also match by substring containment). -/
theorem duration_parser_priority_and_examples_witness :
    parse_duration_to_seconds (some (JVal.jstr "100ns")) =
      (floatParse (lremove "ns".data (normDur (JVal.jstr "100ns")))).map
        (fun v => v / 1000000000) :=
  duration_parser_priority_and_examples.1 "100ns" (by decide) (by decide)

/-- C3: the Memory Parser converts a string to megabytes through the
priority chain `GB` (×1024), `MB` (as-is), `KB` (÷1024), bare `B` when
neither `KB` nor `MB` occurs (÷1024²), bare number treated as bytes
(÷1024²); empty or absent input yields 0.  `"256.5MB"` yields 256.5,
`"1.2GB"` yields 1228.8, `"512KB"` yields 0.5, `"1048576"` yields 1.0. -/
theorem memory_parser_rules_and_examples :
    (∀ s : String, s ≠ "" →
      lcontains "GB".data (normMem (JVal.jstr s)) = true →
      parse_memory_to_mb (some (JVal.jstr s)) =
        (floatParse (lremove "GB".data (normMem (JVal.jstr s)))).map (fun v => v * 1024)) ∧
    (∀ s : String, s ≠ "" →
      lcontains "GB".data (normMem (JVal.jstr s)) = false →
      lcontains "MB".data (normMem (JVal.jstr s)) = true →
      parse_memory_to_mb (some (JVal.jstr s)) =
        floatParse (lremove "MB".data (normMem (JVal.jstr s)))) ∧
    (∀ s : String, s ≠ "" →
      lcontains "GB".data (normMem (JVal.jstr s)) = false →
      lcontains "MB".data (normMem (JVal.jstr s)) = false →
      lcontains "KB".data (normMem (JVal.jstr s)) = true →
      parse_memory_to_mb (some (JVal.jstr s)) =
        (floatParse (lremove "KB".data (normMem (JVal.jstr s)))).map (fun v => v / 1024)) ∧
    (∀ s : String, s ≠ "" →
      lcontains "GB".data (normMem (JVal.jstr s)) = false →
      lcontains "MB".data (normMem (JVal.jstr s)) = false →
      lcontains "KB".data (normMem (JVal.jstr s)) = false →
      lcontains "B".data (normMem (JVal.jstr s)) = true →
      parse_memory_to_mb (some (JVal.jstr s)) =
        (floatParse (lremove "B".data (normMem (JVal.jstr s)))).map (fun v => v / (1024 * 1024))) ∧
    (∀ s : String, s ≠ "" →
      hasMemSuffix (normMem (JVal.jstr s)) = false →
      parse_memory_to_mb (some (JVal.jstr s)) =
        some (((floatParse (normMem (JVal.jstr s))).getD 0) / (1024 * 1024))) ∧
    parse_memory_to_mb (some (JVal.jstr "")) = some 0 ∧
    parse_memory_to_mb none = some 0 ∧
    parse_memory_to_mb (some (JVal.jstr "256.5MB")) = some (2565 / 10) ∧
    parse_memory_to_mb (some (JVal.jstr "1.2GB")) = some (12288 / 10) ∧
    parse_memory_to_mb (some (JVal.jstr "512KB")) = some (1 / 2) ∧
    parse_memory_to_mb (some (JVal.jstr "1048576")) = some 1 := by
  refine ⟨?_, ?_, ?_, ?_, ?_, by decide, by decide, by decide, by decide, by decide, by decide⟩
  · intro s hs h1
    simp [parse_memory_to_mb, jtruthy, hs, memChain, h1]
  · intro s hs h1 h2
    simp [parse_memory_to_mb, jtruthy, hs, memChain, h1, h2]
  · intro s hs h1 h2 h3
    simp [parse_memory_to_mb, jtruthy, hs, memChain, h1, h2, h3]
  · intro s hs h1 h2 h3 h4
    simp [parse_memory_to_mb, jtruthy, hs, memChain, h1, h2, h3, h4]
  · intro s hs h
    simp only [hasMemSuffix, Bool.or_eq_false_iff] at h
    obtain ⟨⟨⟨h1, h2⟩, h3⟩, h4⟩ := h
    simp only [parse_memory_to_mb, jtruthy, hs, memChain, h1, h2, h3, h4]
    cases hf : floatParse (normMem (JVal.jstr s)) <;> simp [hf, hs]

/-- Witness for C3: the `GB` branch fires on `"1.2GB"` (priority over the
bare-`B` branch, which would also match by substring containment). -/
theorem memory_parser_rules_and_examples_witness :
    parse_memory_to_mb (some (JVal.jstr "1.2GB")) =
      (floatParse (lremove "GB".data (normMem (JVal.jstr "1.2GB")))).map (fun v => v * 1024) :=
  memory_parser_rules_and_examples.1 "1.2GB" (by decide) (by decide)

/-- C4 counterexample: the claim says the parsers never raise, but an
input whose recognized suffix leaves a malformed numeric part makes the
unguarded `float()` call raise `ValueError`: `"xs"` for the duration
parser (`float("x")`) and `"xGB"` for the memory parser. -/
theorem parsers_never_raise_counterexample :
    parse_duration_to_seconds (some (JVal.jstr "xs")) = none ∧
    parse_memory_to_mb (some (JVal.jstr "xGB")) = none := by
  decide

/-- C4 amended: the parsers return 0 for empty/absent (or otherwise falsy)
input and never raise on input without a recognized unit suffix (an
unparsable bare string degrades to 0); but an input carrying a recognized
suffix whose remaining numeric part is malformed raises an exception
instead of returning 0 (in the program that exception is caught by the
extractor's outer handler, which degrades to an empty record). -/
theorem parsers_degrade_to_zero_except_suffix_branches :
    (∀ v : Option JVal, otruthy v = false →
      parse_duration_to_seconds v = some 0 ∧ parse_memory_to_mb v = some 0) ∧
    (∀ w : JVal, hasDurSuffix (normDur w) = false →
      (parse_duration_to_seconds (some w)).isSome = true) ∧
    (∀ w : JVal, hasMemSuffix (normMem w) = false →
      (parse_memory_to_mb (some w)).isSome = true) ∧
    (∀ w : JVal, parse_duration_to_seconds (some w) = none →
      hasDurSuffix (normDur w) = true) ∧
    (∀ w : JVal, parse_memory_to_mb (some w) = none →
      hasMemSuffix (normMem w) = true) := by
  have hdur : ∀ w : JVal, hasDurSuffix (normDur w) = false →
      (parse_duration_to_seconds (some w)).isSome = true := by
    intro w h
    simp only [hasDurSuffix, Bool.or_eq_false_iff] at h
    obtain ⟨⟨⟨⟨⟨h1, h2⟩, h3⟩, h4⟩, h5⟩, h6⟩ := h
    cases hw : jtruthy w with
    | false => simp [parse_duration_to_seconds, hw]
    | true =>
      simp only [parse_duration_to_seconds, hw, if_true, durChain, h1, h2, h3, h4, h5, h6,
        Bool.false_eq_true, if_false]
      cases hf : floatParse (normDur w) <;> simp [hf]
  have hmem : ∀ w : JVal, hasMemSuffix (normMem w) = false →
      (parse_memory_to_mb (some w)).isSome = true := by
    intro w h
    simp only [hasMemSuffix, Bool.or_eq_false_iff] at h
    obtain ⟨⟨⟨h1, h2⟩, h3⟩, h4⟩ := h
    cases hw : jtruthy w with
    | false => simp [parse_memory_to_mb, hw]
    | true =>
      simp only [parse_memory_to_mb, hw, if_true, memChain, h1, h2, h3, h4,
        Bool.false_eq_true, if_false]
      cases hf : floatParse (normMem w) <;> simp [hf]
  refine ⟨?_, hdur, hmem, ?_, ?_⟩
  · intro v hv
    match v with
    | none => exact ⟨rfl, rfl⟩
    | some w =>
      simp only [otruthy] at hv
      exact ⟨by simp [parse_duration_to_seconds, hv], by simp [parse_memory_to_mb, hv]⟩
  · intro w h
    by_contra hc
    have := hdur w (by simpa using hc)
    rw [h] at this
    exact absurd this (by simp)
  · intro w h
    by_contra hc
    have := hmem w (by simpa using hc)
    rw [h] at this
    exact absurd this (by simp)

/-- Witness for C4 amended: the suffix-free unparsable string `"abc"`
degrades to a value (in fact 0) rather than raising, and a falsy input
yields 0. -/
theorem parsers_degrade_to_zero_except_suffix_branches_witness :
    (parse_duration_to_seconds (some (JVal.jstr "abc"))).isSome = true ∧
    parse_duration_to_seconds (some (JVal.jstr "")) = some 0 ∧
    parse_memory_to_mb (some (JVal.jstr "")) = some 0 :=
  ⟨parsers_degrade_to_zero_except_suffix_branches.2.1 (JVal.jstr "abc") (by decide),
   (parsers_degrade_to_zero_except_suffix_branches.1 (some (JVal.jstr "")) (by decide)).1,
   (parsers_degrade_to_zero_except_suffix_branches.1 (some (JVal.jstr "")) (by decide)).2⟩

/-- C7: a missing query identifier or the sentinel `"unknown"` makes the
extractor return the empty record immediately, without issuing any HTTP
request (regardless of what the endpoint would have answered). -/
theorem extractor_short_circuits_without_request (query_id : Option String)
    (http : HttpOutcome) (h : query_id = none ∨ query_id = some "unknown") :
    get_query_stats_from_api query_id http =
      { record := none, madeRequest := false } := by
  rcases h with h | h <;> subst h <;> simp [get_query_stats_from_api]

/-- Witness for C7 at a missing identifier and at the sentinel, against
a live endpoint outcome. -/
theorem extractor_short_circuits_without_request_witness :
    get_query_stats_from_api none (HttpOutcome.response 200 {}) =
      { record := none, madeRequest := false } ∧
    get_query_stats_from_api (some "unknown") HttpOutcome.netError =
      { record := none, madeRequest := false } :=
  ⟨extractor_short_circuits_without_request none (HttpOutcome.response 200 {}) (Or.inl rfl),
   extractor_short_circuits_without_request (some "unknown") HttpOutcome.netError (Or.inr rfl)⟩

/-- C6: on a non-200 status (including 401) or any network-level error the
extractor returns the empty record, and the trial still completes with
source tag `"client-only"`, absent CPU/memory, processed rows equal to the
baseline estimate (`input_rows or 0`), and runtime equal to the client
wall-clock duration. -/
theorem soft_endpoint_failure_degrades_to_client_only (e : ExecOutcome) (cd : Rat)
    (ir : Option Int) (query_id : Option String) (http : HttpOutcome)
    (h : http = HttpOutcome.netError ∨
      ∃ st body, http = HttpOutcome.response st body ∧ st ≠ 200) :
    (get_query_stats_from_api query_id http).record = none ∧
    ∃ t, measure_query_execution e cd ir http = some t ∧
      t.stats_source = "client-only" ∧
      t.cpu_seconds = none ∧
      t.peak_memory_mb = none ∧
      t.input_rows_processed = pyOrIntD ir 0 ∧
      t.runtime_sec = cd := by
  have hrec : ∀ qid : Option String, (get_query_stats_from_api qid http).record = none := by
    intro qid
    rcases h with h | ⟨st, body, h, hst⟩ <;> subst h <;> rcases qid with _ | q
    · rfl
    · simp only [get_query_stats_from_api]
      split <;> rfl
    · rfl
    · simp only [get_query_stats_from_api]
      split
      · rfl
      · simp [hst]
  refine ⟨hrec query_id, ?_⟩
  rw [measure_query_execution, hrec e.queryId]
  exact ⟨_, rfl, rfl, rfl, rfl, rfl, rfl⟩

/-- Witness for C6: an HTTP 401 from the statistics endpoint. -/
theorem soft_endpoint_failure_degrades_to_client_only_witness :
    (get_query_stats_from_api (some "q1") (HttpOutcome.response 401 {})).record = none ∧
    ∃ t, measure_query_execution
        { queryId := some "q1", success := true, errorMsg := "", rowCount := 5 }
        2 (some 7) (HttpOutcome.response 401 {}) = some t ∧
      t.stats_source = "client-only" ∧
      t.cpu_seconds = none ∧
      t.peak_memory_mb = none ∧
      t.input_rows_processed = pyOrIntD (some 7) 0 ∧
      t.runtime_sec = 2 :=
  soft_endpoint_failure_degrades_to_client_only
    { queryId := some "q1", success := true, errorMsg := "", rowCount := 5 }
    2 (some 7) (some "q1") (HttpOutcome.response 401 {})
    (Or.inr ⟨401, {}, rfl, by decide⟩)

/-! ### Shared helper lemmas about the extractor and the measurer -/

/-- The implementation's CPU-time chain is the truthiness probe over
`cpuTimeKeys`. -/
theorem cpuTimeChain_eq_probeD (stats : List (String × JVal)) :
    cpuTimeChain stats = probeD stats cpuTimeKeys (JVal.jstr "0ms") := rfl

/-- The implementation's elapsed-time chain is the truthiness probe over
`elapsedTimeKeys`. -/
theorem elapsedTimeChain_eq_probeD (stats : List (String × JVal)) :
    elapsedTimeChain stats = probeD stats elapsedTimeKeys (JVal.jstr "0ms") := rfl

/-- The implementation's input-row chain is the truthiness probe over
`inputRowKeys`. -/
theorem inputRowsChain_eq_probeD (stats : List (String × JVal)) :
    inputRowsChain stats = probeD stats inputRowKeys (JVal.jint 0) := rfl

/-- The implementation's output-row chain is the truthiness probe over
`outputRowKeys`. -/
theorem outputRowsChain_eq_probeD (stats : List (String × JVal)) :
    outputRowsChain stats = probeD stats outputRowKeys (JVal.jint 0) := rfl

/-- The implementation's peak-memory chain is the last-defaulting
truthiness probe over `peakMemoryKeys`. -/
theorem peakMemoryChain_eq_probeLast (stats : List (String × JVal)) :
    peakMemoryChain stats = probeLast stats peakMemoryKeys := rfl

/-- The implementation's stage fallback chain is the last-defaulting
truthiness probe over `stagePeakKeys`. -/
theorem stagePeakChain_eq_probeLast (ss : List (String × JVal)) :
    stagePeakChain ss = probeLast ss stagePeakKeys := rfl

/-- When the top-level peak chain is truthy, the fallback never fires. -/
theorem peakResolved_truthy (data : QueryJson)
    (ht : otruthy (peakMemoryChain data.queryStats) = true) :
    peakResolved data = peakMemoryChain data.queryStats := by
  simp [peakResolved, ht]

/-- When the top-level peak chain is falsy and there is no `outputStage`,
the falsy chain value is kept. -/
theorem peakResolved_falsy_no_stage (data : QueryJson)
    (hf : otruthy (peakMemoryChain data.queryStats) = false)
    (hos : data.outputStage = none) :
    peakResolved data = peakMemoryChain data.queryStats := by
  simp [peakResolved, hf, hos]

/-- When the top-level peak chain is falsy and `outputStage.stageStats`
is present, the stage chain is used instead. -/
theorem peakResolved_stage (data : QueryJson) (stg : StageJson)
    (ss : List (String × JVal))
    (hf : otruthy (peakMemoryChain data.queryStats) = false)
    (hos : data.outputStage = some stg) (hss : stg.stageStats = some ss) :
    peakResolved data = stagePeakChain ss := by
  simp [peakResolved, hf, hos, hss]

/-- A non-empty extractor output for a 200 response comes from `buildStats`. -/
theorem extractor_200 (q : String) (body : QueryJson) (r : StatsRecord)
    (h : get_query_stats_from_api (some q) (HttpOutcome.response 200 body) =
      { record := some r, madeRequest := true }) :
    buildStats q body = some r := by
  simp only [get_query_stats_from_api] at h
  by_cases hq : q = "" ∨ q = "unknown"
  · simp [hq] at h
  · rw [if_neg hq, if_pos trivial] at h
    exact ((ExtractorOutput.mk.injEq _ _ _ _).mp h).1

/-- Field-level description of any record `buildStats` returns. -/
theorem buildStats_fields (q : String) (body : QueryJson) (r : StatsRecord)
    (h : buildStats q body = some r) :
    r.source = "REST API" ∧
    r.query_id = q ∧
    r.cpu_time_str = cpuTimeChain body.queryStats ∧
    r.elapsed_time_str = elapsedTimeChain body.queryStats ∧
    r.physical_input_rows = inputRowsChain body.queryStats ∧
    r.output_rows = outputRowsChain body.queryStats ∧
    r.peak_memory_str =
      (if otruthy (peakResolved body) then peakResolved body else none) := by
  unfold buildStats at h
  simp only [] at h
  repeat' split at h
  all_goals first
    | exact Option.noConfusion h
    | (obtain rfl := Option.some.inj h
       refine ⟨rfl, rfl, rfl, rfl, rfl, rfl, ?_⟩
       simp_all)

/-- Any record the extractor returns (for any identifier and endpoint
outcome) carries the `"REST API"` source tag. -/
theorem extractor_record_source (qid : Option String) (http : HttpOutcome)
    (r : StatsRecord) (h : (get_query_stats_from_api qid http).record = some r) :
    r.source = "REST API" := by
  unfold get_query_stats_from_api at h
  rcases qid with _ | q
  · exact Option.noConfusion h
  · dsimp only at h
    by_cases hq : q = "" ∨ q = "unknown"
    · rw [if_pos hq] at h
      exact Option.noConfusion h
    · rw [if_neg hq] at h
      cases http with
      | netError => exact Option.noConfusion h
      | response stv body =>
        dsimp only at h
        by_cases hs : stv = 200
        · rw [if_pos hs] at h
          exact (buildStats_fields q body r h).1
        · rw [if_neg hs] at h
          exact Option.noConfusion h

/-- A 200 response whose `queryStats` dictionary is empty yields the
default record: `"0ms"` times, zero parsed metrics, no peak memory. -/
theorem buildStats_empty_stats (q : String) (st : Option JVal) :
    buildStats q { state := st, queryStats := [], outputStage := none } =
      some { query_id := q, state := st.getD (JVal.jstr "UNKNOWN"),
             cpu_time_str := JVal.jstr "0ms", cpu_time_sec := 0,
             elapsed_time_str := JVal.jstr "0ms", elapsed_time_sec := 0,
             peak_memory_str := none, peak_memory_mb := 0,
             physical_input_rows := JVal.jint 0, output_rows := JVal.jint 0,
             source := "REST API" } := by
  have hc : cpuTimeChain ([] : List (String × JVal)) = JVal.jstr "0ms" := rfl
  have he : elapsedTimeChain ([] : List (String × JVal)) = JVal.jstr "0ms" := rfl
  have hp : peakResolved { state := st, queryStats := [], outputStage := none } = none := rfl
  have h0 : parse_duration_to_seconds (some (JVal.jstr "0ms")) = some 0 := by decide
  unfold buildStats
  dsimp only
  rw [hc, he, hp, h0]
  rfl

/-- Shape of every trial the measurer produces: either the server-stats
reconciliation branch or the client-only branch, with all fields written
out. -/
theorem measure_shape (e : ExecOutcome) (cd : Rat) (ir : Option Int)
    (http : HttpOutcome) (t : TrialRecord)
    (h : measure_query_execution e cd ir http = some t) :
    (∃ s p, (get_query_stats_from_api e.queryId http).record = some s ∧
      procRows s.physical_input_rows ir = some p ∧
      t = { runtime_sec := if 0 < s.elapsed_time_sec then s.elapsed_time_sec else cd,
            client_runtime_sec := cd,
            rows_returned := if e.success then e.rowCount else 0,
            input_rows_processed := p,
            throughput_input_rows_per_sec :=
              if 0 < p ∧ 0 < (if 0 < s.elapsed_time_sec then s.elapsed_time_sec else cd) then
                (p : Rat) / (if 0 < s.elapsed_time_sec then s.elapsed_time_sec else cd)
              else 0,
            cpu_seconds := if s.cpu_time_sec = 0 then none else some s.cpu_time_sec,
            peak_memory_mb := if s.peak_memory_mb = 0 then none else some s.peak_memory_mb,
            status := statusStr e, query_id := queryIdStr e,
            stats_source := s.source, server_stats := some s }) ∨
    ((get_query_stats_from_api e.queryId http).record = none ∧
      t = { runtime_sec := cd, client_runtime_sec := cd,
            rows_returned := if e.success then e.rowCount else 0,
            input_rows_processed := pyOrIntD ir 0,
            throughput_input_rows_per_sec :=
              if 0 < pyOrIntD ir 0 ∧ 0 < cd then (pyOrIntD ir 0 : Rat) / cd else 0,
            cpu_seconds := none, peak_memory_mb := none,
            status := statusStr e, query_id := queryIdStr e,
            stats_source := "client-only", server_stats := none }) := by
  unfold measure_query_execution at h
  simp only [] at h
  split at h
  next s heq =>
    split at h
    next hpr => exact Option.noConfusion h
    next p hpr => exact Or.inl ⟨s, p, heq, hpr, (Option.some.inj h).symm⟩
  next heq => exact Or.inr ⟨heq, (Option.some.inj h).symm⟩

/-- C8 counterexample: probing does not take the first present, non-null
value.  With `physicalInputRows` present as the (non-null) number 0 and
`processedInputRows` present as 5, the first-present-non-null rule picks 0
while the extractor's `or`-chain skips the falsy 0 and picks 5. -/
theorem probe_first_present_nonnull_counterexample :
    ((get_query_stats_from_api (some "20240101_000000_00000_aaaaa")
        (HttpOutcome.response 200 c8Body)).record).map
      (fun r => r.physical_input_rows) = some (JVal.jint 5) ∧
    firstPresentNonNull c8Body.queryStats inputRowKeys = some (JVal.jint 0) ∧
    JVal.jint 5 ≠ JVal.jint 0 := by
  decide

/-- C8 amended: for each of the four logical metrics the extractor probes
its ordered candidate list and takes the first truthy value — present,
non-null, and non-zero / non-empty (a present-but-falsy value such as 0 or
`""` is skipped) — else the chain's default; peak memory falls back to the
nested output-stage substructure exactly when every top-level candidate is
falsy, and the fallback again takes the first truthy of the stage
candidates. -/
theorem probing_takes_first_truthy :
    (∀ (stats : List (String × JVal)) (ks : List String) (d : JVal) (k : String),
      otruthy (dget stats k) = false → probeD stats (k :: ks) d = probeD stats ks d) ∧
    (∀ (stats : List (String × JVal)) (ks : List String) (d : JVal) (k : String) (v : JVal),
      dget stats k = some v → jtruthy v = true → probeD stats (k :: ks) d = v) ∧
    (∀ (q : String) (body : QueryJson) (r : StatsRecord),
      get_query_stats_from_api (some q) (HttpOutcome.response 200 body) =
        { record := some r, madeRequest := true } →
      r.cpu_time_str = probeD body.queryStats cpuTimeKeys (JVal.jstr "0ms") ∧
      r.elapsed_time_str = probeD body.queryStats elapsedTimeKeys (JVal.jstr "0ms") ∧
      r.physical_input_rows = probeD body.queryStats inputRowKeys (JVal.jint 0) ∧
      r.output_rows = probeD body.queryStats outputRowKeys (JVal.jint 0) ∧
      (otruthy (probeLast body.queryStats peakMemoryKeys) = true →
        r.peak_memory_str = probeLast body.queryStats peakMemoryKeys) ∧
      (otruthy (probeLast body.queryStats peakMemoryKeys) = false →
        body.outputStage = none → r.peak_memory_str = none) ∧
      (∀ (stg : StageJson) (ss : List (String × JVal)),
        otruthy (probeLast body.queryStats peakMemoryKeys) = false →
        body.outputStage = some stg → stg.stageStats = some ss →
        r.peak_memory_str =
          (if otruthy (probeLast ss stagePeakKeys) then probeLast ss stagePeakKeys
           else none))) := by
  refine ⟨?_, ?_, ?_⟩
  · intro stats ks d k hk
    simp [probeD, pyOrD, hk]
  · intro stats ks d k v h1 h2
    simp [probeD, pyOrD, otruthy, h1, h2]
  · intro q body r h
    have hb := extractor_200 q body r h
    obtain ⟨-, -, hcpu, hel, hin, hout, hpeak⟩ := buildStats_fields q body r hb
    refine ⟨?_, ?_, ?_, ?_, ?_, ?_, ?_⟩
    · rw [hcpu, cpuTimeChain_eq_probeD]
    · rw [hel, elapsedTimeChain_eq_probeD]
    · rw [hin, inputRowsChain_eq_probeD]
    · rw [hout, outputRowsChain_eq_probeD]
    · intro ht
      rw [← peakMemoryChain_eq_probeLast] at ht ⊢
      rw [hpeak, peakResolved_truthy body ht, if_pos ht]
    · intro hf hos
      rw [← peakMemoryChain_eq_probeLast] at hf
      rw [hpeak, peakResolved_falsy_no_stage body hf hos, if_neg (by simp [hf])]
    · intro stg ss hf hos hss
      rw [← peakMemoryChain_eq_probeLast] at hf
      rw [hpeak, peakResolved_stage body stg ss hf hos hss, stagePeakChain_eq_probeLast]

/-- Witness for C8 amended: a truthy first candidate is taken, and a falsy
(empty-string) first candidate is skipped. -/
theorem probing_takes_first_truthy_witness :
    probeD [("physicalInputRows", JVal.jint 7)]
      ("physicalInputRows" :: ["processedInputRows"]) (JVal.jint 0) = JVal.jint 7 ∧
    probeD [("totalCpuTime", JVal.jstr "")]
      ("totalCpuTime" :: ["cpuTime"]) (JVal.jstr "0ms") =
      probeD [("totalCpuTime", JVal.jstr "")] ["cpuTime"] (JVal.jstr "0ms") :=
  ⟨probing_takes_first_truthy.2.1 _ _ _ _ (JVal.jint 7) (by decide) (by decide),
   probing_takes_first_truthy.1 _ _ _ _ (by decide)⟩

/-- C9: whenever the extractor returns any non-empty record its source tag
is `"REST API"` and the trial carries that tag; `"client-only"` appears
exactly when the extractor returned the empty record; and a 200 response
with none of the candidate fields still tags the trial `"REST API"` while
the `"0ms"` defaults force client wall-clock runtime and absent CPU and
memory. -/
theorem rest_api_source_tag :
    (∀ (qid : Option String) (http : HttpOutcome) (r : StatsRecord),
      (get_query_stats_from_api qid http).record = some r → r.source = "REST API") ∧
    (∀ (e : ExecOutcome) (cd : Rat) (ir : Option Int) (http : HttpOutcome) (t : TrialRecord),
      measure_query_execution e cd ir http = some t →
      (t.server_stats.isSome = true → t.stats_source = "REST API") ∧
      (t.server_stats = none ↔ t.stats_source = "client-only")) ∧
    (∀ (e : ExecOutcome) (cd : Rat) (ir : Option Int) (q : String) (st : Option JVal),
      e.queryId = some q → q ≠ "" → q ≠ "unknown" →
      ∃ t, measure_query_execution e cd ir
          (HttpOutcome.response 200 { state := st, queryStats := [], outputStage := none }) =
            some t ∧
        t.stats_source = "REST API" ∧ t.cpu_seconds = none ∧ t.peak_memory_mb = none ∧
        t.runtime_sec = cd ∧ t.input_rows_processed = pyOrIntD ir 0) := by
  refine ⟨extractor_record_source, ?_, ?_⟩
  · intro e cd ir http t h
    rcases measure_shape e cd ir http t h with ⟨s, p, hs, hp, rfl⟩ | ⟨hs, rfl⟩
    · have hsrc : s.source = "REST API" := extractor_record_source e.queryId http s hs
      refine ⟨fun _ => hsrc, ?_⟩
      constructor
      · intro hnone
        exact Option.noConfusion hnone
      · intro hct
        have : s.source = "client-only" := hct
        rw [hsrc] at this
        exact absurd this (by decide)
    · exact ⟨fun hx => by simp at hx, by simp⟩
  · intro e cd ir q st hqid hq1 hq2
    have hq : ¬(q = "" ∨ q = "unknown") := by
      rintro (hx | hx)
      · exact hq1 hx
      · exact hq2 hx
    have hrec : (get_query_stats_from_api e.queryId
        (HttpOutcome.response 200 { state := st, queryStats := [], outputStage := none })).record =
        some { query_id := q, state := st.getD (JVal.jstr "UNKNOWN"),
               cpu_time_str := JVal.jstr "0ms", cpu_time_sec := 0,
               elapsed_time_str := JVal.jstr "0ms", elapsed_time_sec := 0,
               peak_memory_str := none, peak_memory_mb := 0,
               physical_input_rows := JVal.jint 0, output_rows := JVal.jint 0,
               source := "REST API" } := by
      rw [hqid]
      unfold get_query_stats_from_api
      dsimp only
      rw [if_neg hq, if_pos rfl]
      dsimp only
      exact buildStats_empty_stats q st
    simp only [measure_query_execution, hrec]
    simp [procRows, lt_irrefl]

/-- Witness for C9: the empty-statistics 200 scenario at a concrete cursor
outcome with identifier `"q9"`. -/
theorem rest_api_source_tag_witness :
    ∃ t, measure_query_execution wExecQ 3 none
        (HttpOutcome.response 200 { state := none, queryStats := [], outputStage := none }) =
          some t ∧
      t.stats_source = "REST API" ∧ t.cpu_seconds = none ∧ t.peak_memory_mb = none ∧
      t.runtime_sec = 3 ∧ t.input_rows_processed = pyOrIntD none 0 :=
  rest_api_source_tag.2.2 wExecQ 3 none "q9" none rfl (by decide) (by decide)

/-- C1: in every trial, `runtime_sec` equals the extractor's elapsed
seconds when that value is present and strictly positive, otherwise the
client wall-clock duration; it is always populated (the field is total),
and exactly one of the two sources determines it. -/
theorem runtime_prefers_server_elapsed_else_client (e : ExecOutcome) (cd : Rat)
    (ir : Option Int) (http : HttpOutcome) (t : TrialRecord)
    (h : measure_query_execution e cd ir http = some t) :
    t.client_runtime_sec = cd ∧
    t.runtime_sec = (match t.server_stats with
      | some s => if 0 < s.elapsed_time_sec then s.elapsed_time_sec else cd
      | none => cd) ∧
    ((∃ s, t.server_stats = some s ∧ 0 < s.elapsed_time_sec ∧
        t.runtime_sec = s.elapsed_time_sec) ∨
      (t.runtime_sec = cd ∧ ∀ s, t.server_stats = some s → ¬ 0 < s.elapsed_time_sec)) ∧
    ¬((∃ s, t.server_stats = some s ∧ 0 < s.elapsed_time_sec) ∧
      (∀ s, t.server_stats = some s → ¬ 0 < s.elapsed_time_sec)) := by
  rcases measure_shape e cd ir http t h with ⟨s, p, hs, hp, rfl⟩ | ⟨hs, rfl⟩
  · refine ⟨rfl, rfl, ?_, ?_⟩
    · by_cases he : 0 < s.elapsed_time_sec
      · exact Or.inl ⟨s, rfl, he, by dsimp only; rw [if_pos he]⟩
      · refine Or.inr ⟨by dsimp only; rw [if_neg he], ?_⟩
        intro s' hs'
        cases Option.some.inj hs'
        exact he
    · rintro ⟨⟨s', hs', he'⟩, hall⟩
      cases Option.some.inj hs'
      exact hall _ rfl he'
  · refine ⟨rfl, rfl, Or.inr ⟨rfl, ?_⟩, ?_⟩
    · intro s hs'
      exact Option.noConfusion hs'
    · rintro ⟨⟨s, hs', -⟩, -⟩
      exact Option.noConfusion hs'

/-- Witness for C1: a trial measured with a network error from the
statistics endpoint, client duration 2. -/
theorem runtime_prefers_server_elapsed_else_client_witness :
    wTrialClient.client_runtime_sec = 2 ∧
    wTrialClient.runtime_sec = (match wTrialClient.server_stats with
      | some s => if 0 < s.elapsed_time_sec then s.elapsed_time_sec else 2
      | none => 2) ∧
    ((∃ s, wTrialClient.server_stats = some s ∧ 0 < s.elapsed_time_sec ∧
        wTrialClient.runtime_sec = s.elapsed_time_sec) ∨
      (wTrialClient.runtime_sec = 2 ∧
        ∀ s, wTrialClient.server_stats = some s → ¬ 0 < s.elapsed_time_sec)) ∧
    ¬((∃ s, wTrialClient.server_stats = some s ∧ 0 < s.elapsed_time_sec) ∧
      (∀ s, wTrialClient.server_stats = some s → ¬ 0 < s.elapsed_time_sec)) :=
  runtime_prefers_server_elapsed_else_client wExec 2 (some 7) HttpOutcome.netError
    wTrialClient (by decide)

/-- C5: in every trial record `cpu_seconds` and `peak_memory_mb` are never
the numeral 0 — when the server value is absent or zero they are `None` —
and in the CSV row the corresponding cells (columns 8 and 9, 0-based) are
the empty string exactly when the record holds `None` and never hold the
numeral 0. -/
theorem cpu_memory_never_zero (e : ExecOutcome) (cd : Rat) (ir : Option Int)
    (http : HttpOutcome) (t : TrialRecord) (q_file : String) (i : Nat)
    (h : measure_query_execution e cd ir http = some t) :
    t.cpu_seconds ≠ some 0 ∧ t.peak_memory_mb ≠ some 0 ∧
    (csvCellOpt t.cpu_seconds = Cell.cstr "" ↔ t.cpu_seconds = none) ∧
    (csvCellOpt t.peak_memory_mb = Cell.cstr "" ↔ t.peak_memory_mb = none) ∧
    (csv_trial_row q_file i t)[8]? = some (csvCellOpt t.cpu_seconds) ∧
    (csv_trial_row q_file i t)[9]? = some (csvCellOpt t.peak_memory_mb) ∧
    (∀ v : Rat, (csv_trial_row q_file i t)[8]? = some (Cell.crat v) → v ≠ 0) ∧
    (∀ v : Rat, (csv_trial_row q_file i t)[9]? = some (Cell.crat v) → v ≠ 0) := by
  have key : ∀ o : Option Rat, o ≠ some 0 → ∀ v : Rat, csvCellOpt o = Cell.crat v → v ≠ 0 := by
    intro o ho v hv
    cases o with
    | none => simp [csvCellOpt] at hv
    | some x =>
      simp only [csvCellOpt, Cell.crat.injEq] at hv
      intro h0
      exact ho (by rw [hv, h0])
  have hzero : t.cpu_seconds ≠ some 0 ∧ t.peak_memory_mb ≠ some 0 := by
    rcases measure_shape e cd ir http t h with ⟨s, p, hs, hp, rfl⟩ | ⟨hs, rfl⟩
    · constructor
      · dsimp only
        by_cases hc : s.cpu_time_sec = 0 <;> simp [hc]
      · dsimp only
        by_cases hc : s.peak_memory_mb = 0 <;> simp [hc]
    · constructor <;> simp
  have h8 : (csv_trial_row q_file i t)[8]? = some (csvCellOpt t.cpu_seconds) := rfl
  have h9 : (csv_trial_row q_file i t)[9]? = some (csvCellOpt t.peak_memory_mb) := rfl
  refine ⟨hzero.1, hzero.2, ?_, ?_, h8, h9, ?_, ?_⟩
  · cases hc : t.cpu_seconds <;> simp [csvCellOpt]
  · cases hc : t.peak_memory_mb <;> simp [csvCellOpt]
  · intro v hv
    rw [h8] at hv
    exact key _ hzero.1 v (Option.some.inj hv)
  · intro v hv
    rw [h9] at hv
    exact key _ hzero.2 v (Option.some.inj hv)

/-- Witness for C5 at a concrete trial and CSV row. -/
theorem cpu_memory_never_zero_witness :
    wTrialClient.cpu_seconds ≠ some 0 ∧ wTrialClient.peak_memory_mb ≠ some 0 ∧
    (csvCellOpt wTrialClient.cpu_seconds = Cell.cstr "" ↔ wTrialClient.cpu_seconds = none) ∧
    (csvCellOpt wTrialClient.peak_memory_mb = Cell.cstr "" ↔
      wTrialClient.peak_memory_mb = none) ∧
    (csv_trial_row "q1.sql" 0 wTrialClient)[8]? = some (csvCellOpt wTrialClient.cpu_seconds) ∧
    (csv_trial_row "q1.sql" 0 wTrialClient)[9]? =
      some (csvCellOpt wTrialClient.peak_memory_mb) ∧
    (∀ v : Rat, (csv_trial_row "q1.sql" 0 wTrialClient)[8]? = some (Cell.crat v) → v ≠ 0) ∧
    (∀ v : Rat, (csv_trial_row "q1.sql" 0 wTrialClient)[9]? = some (Cell.crat v) → v ≠ 0) :=
  cpu_memory_never_zero wExec 2 (some 7) HttpOutcome.netError wTrialClient "q1.sql" 0
    (by decide)

/-- C10: the `query_id` field of every trial record is a total string
(never null or absent); it equals the captured identifier when one was
captured and non-empty, and the substitute `"unavailable"` otherwise. -/
theorem trial_query_id_never_absent (e : ExecOutcome) (cd : Rat) (ir : Option Int)
    (http : HttpOutcome) (t : TrialRecord)
    (h : measure_query_execution e cd ir http = some t) :
    t.query_id = queryIdStr e ∧
    (e.queryId = none → t.query_id = "unavailable") ∧
    (∀ q, e.queryId = some q → q ≠ "" → t.query_id = q) ∧
    t.query_id ≠ "" := by
  have hq : t.query_id = queryIdStr e := by
    rcases measure_shape e cd ir http t h with ⟨s, p, hs, hp, rfl⟩ | ⟨hs, rfl⟩ <;> rfl
  refine ⟨hq, ?_, ?_, ?_⟩
  · intro hn
    rw [hq]
    simp [queryIdStr, hn]
  · intro q hsome hne
    rw [hq]
    simp [queryIdStr, hsome, hne]
  · rw [hq]
    unfold queryIdStr
    cases e.queryId with
    | none => simp
    | some q =>
      by_cases hq0 : q = "" <;> simp [hq0]

/-- Witness for C10: a trial whose cursor yielded no identifier carries
`"unavailable"`. -/
theorem trial_query_id_never_absent_witness :
    wTrialClient.query_id = queryIdStr wExec ∧
    (wExec.queryId = none → wTrialClient.query_id = "unavailable") ∧
    (∀ q, wExec.queryId = some q → q ≠ "" → wTrialClient.query_id = q) ∧
    wTrialClient.query_id ≠ "" :=
  trial_query_id_never_absent wExec 2 (some 7) HttpOutcome.netError wTrialClient (by decide)

end Benchmark

